import Mathlib

/-!
Shallow embedding of the agentarena-auditor sources (src/agent/config.py,
src/agent/services/auditor.py, src/agent/server.py, src/agent/local.py).

External libraries invoked by the code (the OpenAI client, json.loads, httpx
requests, git, the filesystem) are modelled as explicit function parameters:
a call that can raise a Python exception is a function into
`Except PyError _`.  A Python `try/except` block is a `match` on that
`Except` value.  Data validated by pydantic is modelled by explicit
validation functions over a `Json` value type, following pydantic's
semantics for the models declared in auditor.py.
-/

/-- Python exception values, as far as the embedded code distinguishes them. -/
inductive PyError where
  | attributeError (name : String)
  | jsonDecodeError (msg : String)
  | validationError (msg : String)
  | httpRequestError (msg : String)
  | httpStatusError (status : Nat)
  | httpException (status : Nat)
  | other (msg : String)
deriving DecidableEq

/-- JSON values, the result type of json.loads / httpx Response.json(). -/
inductive Json where
  | null
  | bool (b : Bool)
  | num (n : Int)
  | str (s : String)
  | arr (elems : List Json)
  | obj (fields : List (String × Json))

/-- Key lookup in a parsed JSON object (a Python dict has unique keys,
so first-match lookup is adequate). -/
def lookupField (fields : List (String × Json)) (key : String) : Option Json :=
  (fields.find? (fun kv => kv.1 == key)).map Prod.snd

/-- Python falsiness of a JSON value, used by `if not solidity_content`
in server.py. -/
def Json.pyFalsy : Json → Bool
  | .null => true
  | .bool b => !b
  | .num n => n == 0
  | .str s => s == ""
  | .arr elems => elems.isEmpty
  | .obj fields => fields.isEmpty

/- ------------------------------------------------------------------
src/agent/config.py
------------------------------------------------------------------ -/

/-- The Settings model of config.py, with the exact field names it declares. -/
structure Settings where
  openai_api_key : String
  openai_model : String
  agent_arena_api_key : String
  webhook_auth_token : String
  data_dir : String
  log_level : String
  log_file : String
deriving DecidableEq

/-- Python attribute access on a Settings value: the fields declared in
config.py resolve to their values, any other attribute name raises
AttributeError (pydantic BaseModel semantics). -/
def Settings.getattr (c : Settings) : String → Except PyError String
  | "openai_api_key" => .ok c.openai_api_key
  | "openai_model" => .ok c.openai_model
  | "agent_arena_api_key" => .ok c.agent_arena_api_key
  | "webhook_auth_token" => .ok c.webhook_auth_token
  | "data_dir" => .ok c.data_dir
  | "log_level" => .ok c.log_level
  | "log_file" => .ok c.log_file
  | name => .error (.attributeError name)

/- ------------------------------------------------------------------
src/agent/services/auditor.py
------------------------------------------------------------------ -/

/-- VulnerabilityFinding (auditor.py): all four fields are plain strings;
the severity values named in the Field description are documentation only,
pydantic enforces no membership constraint. -/
structure VulnerabilityFinding where
  title : String
  description : String
  severity : String
  file_path : String
deriving DecidableEq

/-- AuditResponse (auditor.py): a list of findings, defaulting to empty. -/
structure AuditResponse where
  findings : List VulnerabilityFinding
deriving DecidableEq

/-- model_dump of a VulnerabilityFinding (used by send_audit_results). -/
def VulnerabilityFinding.model_dump (f : VulnerabilityFinding) : Json :=
  .obj [("title", .str f.title), ("description", .str f.description),
        ("severity", .str f.severity), ("file_path", .str f.file_path)]

/-- Pydantic validation of one required `str` field: the key must be present
and hold a JSON string. -/
def requireStrField (fields : List (String × Json)) (key : String) :
    Except PyError String :=
  match lookupField fields key with
  | some (.str s) => .ok s
  | _ => .error (.validationError key)

/-- Pydantic validation of a VulnerabilityFinding from a JSON value:
it must be an object carrying string values for title, description,
severity and file_path; severity is any string. -/
def VulnerabilityFinding.validate : Json → Except PyError VulnerabilityFinding
  | .obj fields => do
      let title ← requireStrField fields "title"
      let description ← requireStrField fields "description"
      let severity ← requireStrField fields "severity"
      let file_path ← requireStrField fields "file_path"
      pure ⟨title, description, severity, file_path⟩
  | _ => .error (.validationError "finding must be an object")

/-- Validation of each element of the findings list. -/
def validateFindingList : List Json → Except PyError (List VulnerabilityFinding)
  | [] => .ok []
  | j :: rest => do
      let v ← VulnerabilityFinding.validate j
      let vs ← validateFindingList rest
      pure (v :: vs)

/-- Pydantic construction AuditResponse(**audit_result): the parsed JSON must
be an object (otherwise the ** unpacking raises); a missing findings key takes
the default empty list; a findings key must hold a list of valid findings. -/
def AuditResponse.validate : Json → Except PyError AuditResponse
  | .obj fields =>
      match lookupField fields "findings" with
      | none => .ok ⟨[]⟩
      | some (.arr elems) =>
          match validateFindingList elems with
          | .ok vs => .ok ⟨vs⟩
          | .error e => .error e
      | some _ => .error (.validationError "findings must be a list")
  | _ => .error (.validationError "response must be a mapping")

/-- Text of SolidityAuditor.AUDIT_PROMPT before the contracts insertion point,
after Python str.format has replaced the doubled braces by single ones. -/
def auditPromptHead : String :=
"
    You are an expert Solidity smart contract auditor. Analyze the provided smart contracts and identify security vulnerabilities, bugs, and optimization opportunities.

    ## Instructions
    1. Analyze each contract thoroughly
    2. Identify all possible security vulnerabilities
    3. Provide your findings in JSON format as specified below

    ## Vulnerability Categories To Consider
    - Reentrancy vulnerabilities
    - Access control issues
    - Integer overflow/underflow
    - Denial of service vectors
    - Logic errors and edge cases
    - Gas optimization issues
    - Centralization risks
    - Front-running opportunities
    - Timestamp manipulation
    - Unchecked external calls
    - Improper error handling
    - Incorrect inheritance
    - Missing validation
    - Flash loan attack vectors
    - Business logic flaws
    - Insufficient testing coverage

    ## Severity Levels
    - High: Significant vulnerabilities that could lead to loss of funds
    - Medium: Vulnerabilities that pose risks but have limited impact
    - Low: Minor issues that should be addressed but don\x27t pose immediate risks
    - Info: Suggestions for best practices, optimizations, or code quality improvements

    ## Response Format
    Return your findings in the following JSON format:
    ```json
    \x7b
      \"findings\": [
        \x7b
          \"title\": \"Clear, concise title of the vulnerability\",
          \"description\": \"Detailed explanation including how the vulnerability could be exploited and recommendation to fix\",
          \"severity\": \"High|Medium|Low|Info\",
          \"file_path\": \"path/to/the/file/containing/the/vulnerability\"
        \x7d
      ]
    \x7d
    ```

    ## Smart Contracts to Audit
    ```solidity
    "

/-- Text of SolidityAuditor.AUDIT_PROMPT after the contracts insertion point. -/
def auditPromptTail : String :=
"
    ```
    "

/-- AUDIT_PROMPT.format applied to the contracts text. -/
def audit_prompt_formatted (contracts : String) : String :=
  auditPromptHead ++ contracts ++ auditPromptTail

/-- The generation backend (the OpenAI chat-completions call together with
the extraction of choices[0].message.content): state-threaded so that the
number of invocations is observable; a call either raises or yields the
response text. -/
def Backend (σ : Type) : Type :=
  σ → String → Except PyError String × σ

/-- The try/except ladder of audit_files applied to the outcome of the single
backend call: a raised backend exception, a json.loads failure, or a pydantic
validation failure each degrade to an empty findings list; otherwise the
validated response is returned. -/
def audit_response_of (json_loads : String → Except PyError Json)
    (result : Except PyError String) : AuditResponse :=
  match result with
  | .error _ => ⟨[]⟩
  | .ok result_text =>
      match json_loads result_text with
      | .error _ => ⟨[]⟩
      | .ok audit_result =>
          match AuditResponse.validate audit_result with
          | .error _ => ⟨[]⟩
          | .ok validated => validated

/-- SolidityAuditor.audit_files: format the audit prompt around the contracts
text, invoke the backend exactly once, and process the outcome through the
try/except ladder; the function itself never raises. -/
def audit_files {σ : Type} (json_loads : String → Except PyError Json)
    (backend : Backend σ) (s : σ) (contracts : String) : AuditResponse × σ :=
  let call := backend s (audit_prompt_formatted contracts)
  (audit_response_of json_loads call.1, call.2)

/-- A backend stub whose state counts how many times it has been invoked. -/
def countingBackend (f : Nat → String → Except PyError String) : Backend Nat :=
  fun n p => (f n p, n + 1)

/- ------------------------------------------------------------------
src/agent/server.py
------------------------------------------------------------------ -/

/-- The webhook payload model Notification of server.py. -/
structure Notification where
  task_id : String
  get_contracts_url : String
  post_findings_url : String
deriving DecidableEq

/-- An httpx response, as far as the embedded code consumes it: its status
code and the outcome of calling .json() on it. -/
structure HttpResp where
  status : Nat
  jsonBody : Except PyError Json

/-- The body of the try block of fetch_solidity_files: read the API-key
attribute while building the request headers, perform the GET,
raise_for_status (httpx raises on any non-2xx status), then parse the body
as JSON. -/
def fetch_attempt (httpGet : String → List (String × String) → Except PyError HttpResp)
    (contracts_url : String) (config : Settings) : Except PyError Json := do
  let key ← config.getattr "agent4rena_api_key"
  let resp ← httpGet contracts_url [("X-API-Key", key)]
  if 200 ≤ resp.status ∧ resp.status < 300 then resp.jsonBody
  else .error (.httpStatusError resp.status)

/-- fetch_solidity_files: any exception inside the try block is logged and
the function returns None. -/
def fetch_solidity_files
    (httpGet : String → List (String × String) → Except PyError HttpResp)
    (contracts_url : String) (config : Settings) : Option Json :=
  (fetch_attempt httpGet contracts_url config).toOption

/-- One outbound POST as assembled by send_audit_results: target URL, JSON
payload, headers. -/
structure PostAttempt where
  url : String
  payload : Json
  headers : List (String × String)

/-- send_audit_results: build the findings payload, read the API-key
attribute while building the headers, then issue the POST; the response (or
any raised RequestError, HTTPStatusError or other exception) is only logged
by the three except clauses, so the function always returns normally and the
list of POSTs it attempted is independent of the transport outcome and never
longer than one. -/
def send_audit_results (httpPost : PostAttempt → Except PyError HttpResp)
    (config : Settings) (callback_url : String) (task_id : String)
    (audit : AuditResponse) : List PostAttempt :=
  let findings_dict := audit.findings.map VulnerabilityFinding.model_dump
  let payload : Json := .obj [("task_id", .str task_id), ("findings", .arr findings_dict)]
  match config.getattr "agent4rena_api_key" with
  | .error _ => []
  | .ok key =>
      let attempt : PostAttempt :=
        ⟨callback_url, payload, [("Content-Type", "application/json"), ("X-API-Key", key)]⟩
      let _response := httpPost attempt
      [attempt]

/-- Observable outcome of one run of process_notification: how many times the
auditor was invoked and which callback POSTs were attempted. -/
structure ProcOutcome where
  auditCalls : Nat
  posts : List PostAttempt

/-- process_notification: fetch the contracts; if the fetch produced nothing
(None or a falsy value) log a warning and stop; otherwise run the auditor
once on the fetched content and hand the result to send_audit_results.
Every sub-step already contains its own exceptions, and the enclosing
try/except would only log. `toStr` is Python str conversion applied when the
fetched JSON value is interpolated into the audit prompt. -/
def process_notification {σ : Type}
    (httpGet : String → List (String × String) → Except PyError HttpResp)
    (json_loads : String → Except PyError Json) (backend : Backend σ) (s : σ)
    (toStr : Json → String) (httpPost : PostAttempt → Except PyError HttpResp)
    (notification : Notification) (config : Settings) : ProcOutcome :=
  match fetch_solidity_files httpGet notification.get_contracts_url config with
  | none => ⟨0, []⟩
  | some solidity_content =>
      if solidity_content.pyFalsy then ⟨0, []⟩
      else
        let audit := (audit_files json_loads backend s (toStr solidity_content)).1
        ⟨1, send_audit_results httpPost config notification.post_findings_url
              notification.task_id audit⟩

/-- verify_webhook_secret as defined (but never wired to the route) in
server.py: it reads config.webhook_secret — an attribute Settings does not
declare — and would only then compare the header, answering 401 on mismatch. -/
def verify_webhook_secret (x_webhook_secret : Option String) (config : Settings) :
    Except PyError Bool :=
  match config.getattr "webhook_secret" with
  | .error e => .error e
  | .ok secret =>
      if secret ≠ "" ∧ x_webhook_secret ≠ some secret then
        .error (.httpException 401)
      else .ok true

/-- The HTTP result of the webhook route: status code, body fields, and the
background tasks scheduled before responding. -/
structure WebhookResult where
  status : Nat
  body_status : String
  task_id : String
  scheduled : List Notification
deriving DecidableEq

/-- The webhook route handler body: schedule process_notification as a
background task and acknowledge with 200 processing. -/
def webhook (notification : Notification) : WebhookResult :=
  ⟨200, "processing", notification.task_id, [notification]⟩

/-- An inbound POST /webhook request: the parsed body plus the
X-Webhook-Secret header value, if any. -/
structure WebhookRequest where
  notification : Notification
  x_webhook_secret : Option String

/-- Dispatch of POST /webhook as the route is declared in server.py: the
dependency on verify_webhook_secret is commented out in the decorator, so the
header is never examined and the handler runs unconditionally. -/
def handle_webhook (req : WebhookRequest) : WebhookResult :=
  webhook req.notification

/-- The health route handler: unconditionally 200 healthy. -/
def health_check : Nat × String :=
  (200, "healthy")

/- ------------------------------------------------------------------
Spec-modelled iterative orchestrator
------------------------------------------------------------------ -/

/-- Modelled from the spec: the iterative Search/Evaluate orchestrator with
its known-issues ledger is not among the provided source files — only its
two prompt declarations (SEARCH_VULNERABILITIES_PROMPT with a known_issues
placeholder, and EVALUATE_VULNERABILITIES_PROMPT) are.  Spec section 4.3,
one iteration: render the ledger as the literal None when it is empty, run
the Search phase on the audit context and the rendered ledger, run the
Evaluate phase on the candidates and the same context, and append the
Evaluate output to the ledger by string concatenation — no pruning and no
structural deduplication. -/
def audit_iteration (search evaluate : String → String → String)
    (context ledger : String) : String :=
  let known_issues := if ledger = "" then "None" else ledger
  let candidates := search context known_issues
  let classified := evaluate candidates context
  ledger ++ classified

/-- Modelled from the spec: the ledger after i iterations of the Search and
Evaluate loop, starting from the empty ledger (spec section 4.3). -/
def ledger_after (search evaluate : String → String → String) (context : String) :
    Nat → String
  | 0 => ""
  | i + 1 => audit_iteration search evaluate context (ledger_after search evaluate context i)

/- ------------------------------------------------------------------
src/agent/local.py
------------------------------------------------------------------ -/

/-- Modelled from the spec: the module agent.models.solidity_file imported by
local.py is not among the provided source files; spec section 3 describes
ContractFile as a record of a path string and a content string, immutable
once fetched. -/
structure SolidityFile where
  path : String
  content : String

/-- find_solidity_contracts, non-interactive path: read each discovered file;
a per-file read failure is logged and the file is skipped. -/
def find_solidity_contracts (read_file : String → Except PyError String)
    (all_files : List String) : List SolidityFile :=
  all_files.filterMap (fun p =>
    match read_file p with
    | .ok content => some ⟨p, content⟩
    | .error _ => none)

/-- save_audit_results: attempt the file write; on failure, log the error and
re-raise it. -/
def save_audit_results (write : String → String → Except PyError Unit)
    (output_path : String) (audit : String) : Except PyError Unit :=
  match write output_path audit with
  | .ok _ => .ok ()
  | .error e => .error e

/-- process_local: clone, find contracts, stop silently when none were found,
otherwise audit and save; any exception raised by a pipeline stage is caught
by the enclosing try/except, logged, and re-raised to the caller. -/
def process_local (clone : String → Except PyError String)
    (find : String → Except PyError (List SolidityFile))
    (run_audit : List SolidityFile → Except PyError String)
    (write : String → String → Except PyError Unit)
    (repo_url output_path : String) : Except PyError Unit :=
  match clone repo_url with
  | .error e => .error e
  | .ok repo_path =>
      match find repo_path with
      | .error e => .error e
      | .ok solidity_contracts =>
          if solidity_contracts.isEmpty then .ok ()
          else
            match run_audit solidity_contracts with
            | .error e => .error e
            | .ok audit =>
                match save_audit_results write output_path audit with
                | .error e => .error e
                | .ok _ => .ok ()

/-- A concrete Settings value used by concrete evaluations. -/
def sampleSettings : Settings :=
  ⟨"sk-test", "o3-mini", "arena-key", "s1", "/data", "INFO", "agent.log"⟩

/- ------------------------------------------------------------------
Claims
------------------------------------------------------------------ -/

/-- Claim C1, counterexample to the claim as stated: the orchestrator of
auditor.py does not perform ten Search/Evaluate iteration pairs (twenty
generation invocations); on a concrete run it invokes the generation backend
exactly once. -/
theorem claim_C1_counterexample :
    (audit_files (fun _ => (Except.error (PyError.jsonDecodeError "scratch") : Except PyError Json))
        (countingBackend (fun _ _ => Except.ok "")) 0 "contract Foo").2 = 1
    ∧ ¬ (audit_files (fun _ => (Except.error (PyError.jsonDecodeError "scratch") : Except PyError Json))
        (countingBackend (fun _ _ => Except.ok "")) 0 "contract Foo").2 = 20 :=
  ⟨rfl, by decide⟩

/-- Claim C1, amended: for every audit run, audit_files performs exactly one
generation-backend invocation before producing its final output, regardless
of what that invocation returns; there is no iteration loop and no early
exit. -/
theorem claim_C1 (f : Nat → String → Except PyError String)
    (json_loads : String → Except PyError Json) (contracts : String) (n : Nat) :
    (audit_files json_loads (countingBackend f) n contracts).2 = n + 1 :=
  rfl

/-- Claim C2: the code violates the claim. The route decorator of
POST /webhook has its verify_webhook_secret dependency commented out, so a
request whose X-Webhook-Secret header differs from the configured secret is
still answered 200 processing and the pipeline is scheduled; moreover the
dead verify_webhook_secret function itself reads config.webhook_secret,
an attribute Settings does not declare, so it raises AttributeError instead
of answering 401. -/
theorem claim_C2 :
    handle_webhook ⟨⟨"T1", "http://u.example", "http://v.example"⟩, some "s2"⟩
      = ⟨200, "processing", "T1", [⟨"T1", "http://u.example", "http://v.example"⟩]⟩
    ∧ (handle_webhook ⟨⟨"T1", "http://u.example", "http://v.example"⟩, some "s2"⟩).status ≠ 401
    ∧ verify_webhook_secret (some "s2") sampleSettings
        = Except.error (PyError.attributeError "webhook_secret") :=
  ⟨rfl, by decide, rfl⟩

/-- Claim C3: the code violates the claim. For every notification and every
behaviour of the network, the backend and the parser, process_notification
invokes the auditor zero times and attempts zero callback POSTs: both
fetch_solidity_files and send_audit_results read config.agent4rena_api_key,
but Settings declares agent_arena_api_key, so building the request headers
raises AttributeError inside the try block, the fetch returns None and the
session ends before the audit. -/
theorem claim_C3 {σ : Type}
    (httpGet : String → List (String × String) → Except PyError HttpResp)
    (json_loads : String → Except PyError Json) (backend : Backend σ) (s : σ)
    (toStr : Json → String) (httpPost : PostAttempt → Except PyError HttpResp)
    (notification : Notification) (config : Settings) :
    process_notification httpGet json_loads backend s toStr httpPost notification config
      = ⟨0, []⟩ :=
  rfl

/-- Claim C4: in the spec-modelled iterative orchestrator, the known-issues
ledger grows monotonically: after every iteration i of at least one, the
ledger length is at least the length after iteration i - 1, and the previous
ledger is an initial segment of the new one (growth purely by string
concatenation, never pruned). -/
theorem claim_C4 (search evaluate : String → String → String) (context : String)
    (i : Nat) (hi : 1 ≤ i) :
    (ledger_after search evaluate context (i - 1)).length
      ≤ (ledger_after search evaluate context i).length
    ∧ ∃ t, ledger_after search evaluate context (i - 1) ++ t
        = ledger_after search evaluate context i := by
  obtain ⟨j, rfl⟩ : ∃ j, i = j + 1 := ⟨i - 1, (Nat.succ_pred_eq_of_pos hi).symm⟩
  simp only [Nat.add_sub_cancel, ledger_after, audit_iteration]
  refine ⟨?_, ⟨_, rfl⟩⟩
  rw [String.length_append]
  exact Nat.le_add_right _ _

/-- Claim C4, witness: the monotonicity theorem applied at iteration one with
concrete Search and Evaluate stubs. -/
theorem claim_C4_witness :
    1 ≤ 1
    ∧ ((ledger_after (fun _ _ => "candidate") (fun _ _ => "classified") "ctx" 0).length
        ≤ (ledger_after (fun _ _ => "candidate") (fun _ _ => "classified") "ctx" 1).length
      ∧ ∃ t, ledger_after (fun _ _ => "candidate") (fun _ _ => "classified") "ctx" 0 ++ t
          = ledger_after (fun _ _ => "candidate") (fun _ _ => "classified") "ctx" 1) :=
  ⟨Nat.le_refl 1,
   claim_C4 (fun _ _ => "candidate") (fun _ _ => "classified") "ctx" 1 (Nat.le_refl 1)⟩

/-- Claim C5: if every generation-backend invocation raises, audit_files
returns the empty findings result; no exception escapes (the function is
total into AuditResponse). -/
theorem claim_C5 {σ : Type} (json_loads : String → Except PyError Json)
    (backend : Backend σ) (s : σ) (contracts : String)
    (h : ∀ st p, ∃ e, (backend st p).1 = Except.error e) :
    (audit_files json_loads backend s contracts).1 = ⟨[]⟩ := by
  obtain ⟨e, he⟩ := h s (audit_prompt_formatted contracts)
  simp [audit_files, audit_response_of, he]

/-- Claim C5, witness: the theorem applied to a backend stub that always
raises. -/
theorem claim_C5_witness :
    (audit_files (fun _ => (Except.error (PyError.jsonDecodeError "unused") : Except PyError Json))
        (fun (u : Unit) (_ : String) => ((Except.error (PyError.other "backend down") : Except PyError String), u))
        () "contract C").1 = ⟨[]⟩ :=
  claim_C5 _ _ () "contract C" (fun _ _ => ⟨_, rfl⟩)

/-- Claim C6: when the contracts source is entirely unreachable (the outbound
GET raises on every call), the fetch returns None and the session ends early:
the auditor is never invoked and no callback POST is attempted. -/
theorem claim_C6 {σ : Type}
    (httpGet : String → List (String × String) → Except PyError HttpResp)
    (json_loads : String → Except PyError Json) (backend : Backend σ) (s : σ)
    (toStr : Json → String) (httpPost : PostAttempt → Except PyError HttpResp)
    (notification : Notification) (config : Settings)
    (_hg : ∀ u h, ∃ e, httpGet u h = Except.error e) :
    fetch_solidity_files httpGet notification.get_contracts_url config = none
    ∧ process_notification httpGet json_loads backend s toStr httpPost notification config
        = ⟨0, []⟩ :=
  ⟨rfl, rfl⟩

/-- Claim C6, witness: the theorem applied to a GET stub that always raises a
network error. -/
theorem claim_C6_witness :
    fetch_solidity_files (fun _ _ => Except.error (PyError.httpRequestError "unreachable"))
        "http://contracts.example" sampleSettings = none
    ∧ process_notification (fun _ _ => Except.error (PyError.httpRequestError "unreachable"))
        (fun _ => (Except.error (PyError.jsonDecodeError "unused") : Except PyError Json))
        (fun (u : Unit) (_ : String) => ((Except.ok "" : Except PyError String), u)) ()
        (fun _ => "") (fun _ => Except.error (PyError.httpRequestError "unreachable"))
        ⟨"T1", "http://contracts.example", "http://findings.example"⟩ sampleSettings
        = ⟨0, []⟩ :=
  claim_C6 _ _ _ () _ _ ⟨"T1", "http://contracts.example", "http://findings.example"⟩
    sampleSettings (fun _ _ => ⟨_, rfl⟩)

/-- Claim C7: when the backend returns text, a json.loads failure on that
text, or a pydantic validation failure on the parsed value, makes audit_files
return the empty findings result; the function is total, so the session
completes without an exception propagating. -/
theorem claim_C7 {σ : Type} (json_loads : String → Except PyError Json)
    (backend : Backend σ) (s : σ) (contracts text : String)
    (hb : (backend s (audit_prompt_formatted contracts)).1 = Except.ok text)
    (hfail : (∃ e, json_loads text = Except.error e)
      ∨ (∃ j e, json_loads text = Except.ok j ∧ AuditResponse.validate j = Except.error e)) :
    (audit_files json_loads backend s contracts).1 = ⟨[]⟩ := by
  rcases hfail with ⟨e, he⟩ | ⟨j, e, hj, hv⟩
  · simp [audit_files, audit_response_of, hb, he]
  · simp [audit_files, audit_response_of, hb, hj, hv]

/-- Claim C7, witness: the theorem applied to a backend that answers text the
parser rejects. -/
theorem claim_C7_witness :
    ((fun (u : Unit) (_ : String) => ((Except.ok "not json" : Except PyError String), u)) ()
        (audit_prompt_formatted "contract C")).1 = Except.ok "not json"
    ∧ (fun (_ : String) => (Except.error (PyError.jsonDecodeError "bad") : Except PyError Json))
        "not json" = Except.error (PyError.jsonDecodeError "bad")
    ∧ (audit_files (fun _ => (Except.error (PyError.jsonDecodeError "bad") : Except PyError Json))
        (fun (u : Unit) (_ : String) => ((Except.ok "not json" : Except PyError String), u))
        () "contract C").1 = ⟨[]⟩ :=
  ⟨rfl, rfl, claim_C7 _ _ () "contract C" "not json" rfl (Or.inl ⟨_, rfl⟩)⟩

/-- Claim C8, counterexample to the claim as stated: a backend response whose
severity is the string Info — the very value the audit prompt requests —
passes validation and yields a Finding whose severity is outside
the set Critical, High, Medium, Low, Informational. -/
theorem claim_C8_counterexample :
    (audit_files
        (fun (_ : String) => (Except.ok (Json.obj [("findings", Json.arr [Json.obj
          [("title", Json.str "Unchecked call return value"),
           ("description", Json.str "The call return value is not checked."),
           ("severity", Json.str "Info"),
           ("file_path", Json.str "Vault.sol")]])]) : Except PyError Json))
        (fun (u : Unit) (_ : String) => ((Except.ok "response text" : Except PyError String), u))
        () "contract Vault").1
      = ⟨[⟨"Unchecked call return value", "The call return value is not checked.",
           "Info", "Vault.sol"⟩]⟩
    ∧ "Info" ∉ (["Critical", "High", "Medium", "Low", "Informational"] : List String) :=
  ⟨rfl, by decide⟩

/-- Claim C8, amended: the severity of a Finding is whatever string the
backend supplied — validation only requires the four fields to be strings and
imposes no membership constraint — and a Finding is never mutated after
creation: the produced record carries the supplied field values unchanged,
and serialization for the callback reproduces them exactly. -/
theorem claim_C8 (t d s f : String) :
    (audit_files
        (fun (_ : String) => (Except.ok (Json.obj [("findings", Json.arr [Json.obj
          [("title", Json.str t), ("description", Json.str d),
           ("severity", Json.str s), ("file_path", Json.str f)]])]) : Except PyError Json))
        (fun (u : Unit) (_ : String) => ((Except.ok "response text" : Except PyError String), u))
        () "contract Vault").1 = ⟨[⟨t, d, s, f⟩]⟩
    ∧ VulnerabilityFinding.model_dump ⟨t, d, s, f⟩
        = Json.obj [("title", Json.str t), ("description", Json.str d),
            ("severity", Json.str s), ("file_path", Json.str f)] :=
  ⟨rfl, rfl⟩

/-- Claim C9: the result reporter contains every delivery outcome: the POSTs
it attempts do not depend on the transport behaviour (a network error, an
error status or any other response changes nothing the caller can observe,
it is only logged), it never attempts more than one POST per invocation, and
it always returns normally. -/
theorem claim_C9 (transport1 transport2 : PostAttempt → Except PyError HttpResp)
    (config : Settings) (callback_url task_id : String) (audit : AuditResponse) :
    send_audit_results transport1 config callback_url task_id audit
      = send_audit_results transport2 config callback_url task_id audit
    ∧ (send_audit_results transport1 config callback_url task_id audit).length ≤ 1 :=
  ⟨rfl, Nat.zero_le 1⟩

/-- Claim C10: in local mode error containment does not hold at the top
level: save_audit_results re-raises a write failure, and process_local
re-raises to its caller any exception raised by its clone, find, audit or
save stage. -/
theorem claim_C10 (clone : String → Except PyError String)
    (find : String → Except PyError (List SolidityFile))
    (run_audit : List SolidityFile → Except PyError String)
    (write : String → String → Except PyError Unit)
    (repo_url output_path : String) :
    (∀ p a e, write p a = Except.error e → save_audit_results write p a = Except.error e)
    ∧ (∀ e, clone repo_url = Except.error e →
        process_local clone find run_audit write repo_url output_path = Except.error e)
    ∧ (∀ rp e, clone repo_url = Except.ok rp → find rp = Except.error e →
        process_local clone find run_audit write repo_url output_path = Except.error e)
    ∧ (∀ rp cs e, clone repo_url = Except.ok rp → find rp = Except.ok cs →
        cs.isEmpty = false → run_audit cs = Except.error e →
        process_local clone find run_audit write repo_url output_path = Except.error e)
    ∧ (∀ rp cs a e, clone repo_url = Except.ok rp → find rp = Except.ok cs →
        cs.isEmpty = false → run_audit cs = Except.ok a →
        write output_path a = Except.error e →
        process_local clone find run_audit write repo_url output_path = Except.error e) := by
  refine ⟨?_, ?_, ?_, ?_, ?_⟩
  · intro p a e hw
    simp [save_audit_results, hw]
  · intro e hc
    simp [process_local, hc]
  · intro rp e hc hf
    simp [process_local, hc, hf]
  · intro rp cs e hc hf hne hr
    simp [process_local, hc, hf, hne, hr]
  · intro rp cs a e hc hf hne hr hw
    simp [process_local, save_audit_results, hc, hf, hne, hr, hw]

/-- Claim C10, witness: the save stage of the theorem applied to a write stub
that fails with a disk error. -/
theorem claim_C10_witness :
    save_audit_results (fun _ _ => Except.error (PyError.other "disk full"))
        "security_audit_results.txt" "audit text"
      = Except.error (PyError.other "disk full") :=
  (claim_C10 (fun _ => Except.ok "/tmp/repo") (fun _ => Except.ok [])
      (fun _ => Except.ok "") (fun _ _ => Except.error (PyError.other "disk full"))
      "http://repo.example" "security_audit_results.txt").1
    "security_audit_results.txt" "audit text" _ rfl
